import Mathlib

/-!
Verification of the greenconnect carbon-credit marketplace (src/api).

The development shallowly embeds the business logic of the Flask
application: the credit-purchase route buy_credit (src/api/index.py,
lines 577-656), the registration/assessment pipeline register_project
(lines 175-294), the assessment view project_assessment (lines 296-423),
the report/issuance route generate_report (lines 425-496), and the AI
service functions analyze_project and estimate_fallback
(src/api/openai_service.py).

Monetary and quantity fields are stored in MySQL DECIMAL columns
(src/api/db_setup.py); the embedding models these stored values as exact
rationals.  The in-memory IEEE-754 binary64 arithmetic that index.py
performs on them via float() conversions is modelled separately by the
functions fl / fmul / pythonTotalPrice below.
-/

namespace GreenConnect

/-- Status ENUM of the carbon_credits table (db_setup.py line 105). -/
inductive CreditStatus
  | available
  | reserved
  | sold
  | expired
deriving DecidableEq, Repr

/-- Status ENUM of the transactions table (db_setup.py line 124). -/
inductive TxStatus
  | pending
  | completed
  | cancelled
deriving DecidableEq, Repr

/-- Status ENUM of the projects table (db_setup.py line 72). -/
inductive ProjectStatus
  | registered
  | assessing
  | verified
  | active
  | completed
deriving DecidableEq, Repr

/-- Position of a status along the lifecycle chain
registered, assessing, verified, active, completed (spec section 4.5). -/
def statusRank : ProjectStatus → Nat
  | ProjectStatus.registered => 0
  | ProjectStatus.assessing => 1
  | ProjectStatus.verified => 2
  | ProjectStatus.active => 3
  | ProjectStatus.completed => 4

/-- Verification status ENUM of the carbon_assessments table
(db_setup.py line 89). -/
inductive VerifStatus
  | pending
  | approved
  | rejected
deriving DecidableEq, Repr

/-- Project type ENUM of the projects table (db_setup.py line 64). -/
inductive ProjectType
  | forestry
  | agriculture
  | agroforestry
  | wetland
  | other
deriving DecidableEq, Repr

/-- Area unit ENUM of the projects table (db_setup.py line 68). -/
inductive AreaUnit
  | hectares
  | acres
deriving DecidableEq, Repr

/-- Row of the projects table, restricted to the columns the verified
routes read: primary key, owning user, lifecycle status. -/
structure Project where
  id : Nat
  user_id : Nat
  status : ProjectStatus
deriving DecidableEq, Repr

/-- Row of the carbon_credits table (db_setup.py lines 96-111).  Dates are
modelled as day numbers; credit_amount and price_per_credit are DECIMAL
columns, modelled as exact rationals. -/
structure CreditLot where
  id : Nat
  project_id : Nat
  assessment_id : Nat
  credit_amount : ℚ
  issuance_date : Nat
  expiry_date : Nat
  certificate_id : String
  status : CreditStatus
  price_per_credit : ℚ
  verification_document_url : String
deriving DecidableEq, Repr

/-- Row of the transactions table (db_setup.py lines 114-129). -/
structure Transaction where
  credit_id : Nat
  buyer_id : Nat
  seller_id : Nat
  amount : ℚ
  price_per_unit : ℚ
  total_price : ℚ
  status : TxStatus
deriving DecidableEq, Repr

/-- The slice of the ledger store that buy_credit reads and writes. -/
structure MarketState where
  projects : List Project
  credits : List CreditLot
  transactions : List Transaction
deriving DecidableEq, Repr

/-- Effect on one carbon_credits row of the UPDATE at index.py lines
614-618: rows whose id matches get status sold, all other columns and
rows are untouched. -/
def setSold (cid : Nat) (c : CreditLot) : CreditLot :=
  if c.id = cid then { c with status := CreditStatus.sold } else c

/-- Effect on one carbon_credits row of the UPDATE at index.py lines
622-626: rows whose id matches get credit_amount set to the purchased
amount, all other columns and rows are untouched. -/
def setAmount (cid : Nat) (amt : ℚ) (c : CreditLot) : CreditLot :=
  if c.id = cid then { c with credit_amount := amt } else c

/-- Transaction row inserted by buy_credit (index.py lines 606-610):
status completed, total_price = amount * price_per_unit. -/
def purchaseTx (cid buyer seller : Nat) (amt price : ℚ) : Transaction :=
  { credit_id := cid, buyer_id := buyer, seller_id := seller,
    amount := amt, price_per_unit := price,
    total_price := amt * price, status := TxStatus.completed }

/-- Sibling lot inserted by the partial-purchase branch of buy_credit
(index.py lines 628-645): remainder quantity, same project, assessment,
issuance and expiry dates, price and document URL as the purchased lot,
a fresh certificate id, status available. -/
def siblingLot (credit : CreditLot) (amt : ℚ) (cert : String) (fid : Nat) : CreditLot :=
  { id := fid, project_id := credit.project_id,
    assessment_id := credit.assessment_id,
    credit_amount := credit.credit_amount - amt,
    issuance_date := credit.issuance_date,
    expiry_date := credit.expiry_date,
    certificate_id := cert, status := CreditStatus.available,
    price_per_credit := credit.price_per_credit,
    verification_document_url := credit.verification_document_url }

/-- Row filter of the SELECT at index.py lines 586-591: the lot with the
requested id whose status is available. -/
def availablePred (cid : Nat) (c : CreditLot) : Bool :=
  decide (c.id = cid ∧ c.status = CreditStatus.available)

/-- Row filter of the JOIN at index.py lines 586-591: the project row the
lot belongs to. -/
def projPred (pid : Nat) (p : Project) : Bool :=
  decide (p.id = pid)

/-- POST branch of the buy_credit route (index.py lines 577-656).
The SELECT ... JOIN at lines 586-591 is the two find? steps: it returns a
row only when the lot exists with status available and its project row
exists (none models the "Credit not available for purchase" redirect).
The route then unconditionally inserts a completed transaction and either
marks the lot sold (when amount >= credit_amount, line 613) or splits it.
cert and fid stand for the fresh certificate id drawn from
secrets.token_hex and the AUTO_INCREMENT id of the inserted sibling row.
There is no check that amount <= credit_amount, that amount > 0, or that
the buyer differs from the seller. -/
def buy_credit (st : MarketState) (cid buyer : Nat) (amt : ℚ)
    (cert : String) (fid : Nat) : Option MarketState :=
  match st.credits.find? (availablePred cid) with
  | none => none
  | some credit =>
    match st.projects.find? (projPred credit.project_id) with
    | none => none
    | some proj =>
      let tx := purchaseTx cid buyer proj.user_id amt credit.price_per_credit
      if credit.credit_amount ≤ amt then
        some { st with credits := st.credits.map (setSold cid),
                       transactions := st.transactions ++ [tx] }
      else
        some { st with credits := st.credits.map (setAmount cid amt)
                                    ++ [siblingLot credit amt cert fid],
                       transactions := st.transactions ++ [tx] }

/-- Row of the carbon_assessments table, restricted to the columns
generate_report reads and writes (db_setup.py lines 79-93). -/
structure AssessmentRow where
  id : Nat
  project_id : Nat
  carbon_estimate : ℚ
  confidence_score : ℚ
  verification_status : VerifStatus
  report_url : Option String
deriving DecidableEq, Repr

/-- Rows written by the generate_report route. -/
structure IssueResult where
  project : Project
  assessment : AssessmentRow
  lot : CreditLot
deriving DecidableEq, Repr

/-- Credit-issuance part of the generate_report route (index.py lines
425-496), given the joined project and latest-assessment row: approves
the assessment and records a report URL, sets the project status to
verified, and inserts one carbon_credits row with
credit_amount = carbon_estimate, issuance now (the column defaults to
CURRENT_TIMESTAMP), expiry_date = now + 365 * 5 days
(timedelta at line 470), price_per_credit 25.00 and status available.
today is the current day number, suffix the secrets.token_hex(4) value,
fid the AUTO_INCREMENT id of the new row. -/
def generate_report (p : Project) (a : AssessmentRow) (today : Nat)
    (suffix : String) (fid : Nat) : IssueResult :=
  let report_url := "/reports/" ++ toString p.id ++ "_" ++ toString today ++ ".pdf"
  { project := { p with status := ProjectStatus.verified },
    assessment := { a with verification_status := VerifStatus.approved,
                           report_url := some report_url },
    lot := { id := fid, project_id := p.id, assessment_id := a.id,
             credit_amount := a.carbon_estimate,
             issuance_date := today, expiry_date := today + 365 * 5,
             certificate_id := "CC-" ++ toString p.id ++ "-" ++ suffix,
             status := CreditStatus.available, price_per_credit := 25,
             verification_document_url := report_url } }

/-- Status write of the project_assessment view (index.py lines 316-322):
the UPDATE runs unconditionally on every view of the assessment page,
whatever the project status currently is. -/
def project_assessment_status_update (p : Project) : Project :=
  { p with status := ProjectStatus.assessing }

/-- Steps of the register_project pipeline that can raise a database
exception; a raised exception is caught by the route's except clause,
so everything committed before the failing statement stays visible. -/
inductive RegFail
  | satInsert
  | assessInsert
  | logInsert
  | statusUpdate
deriving DecidableEq, Repr

/-- Row counts of the three appended tables plus the project status, as
seen by a reader of the database. -/
structure AssessPipelineState where
  satellite_count : Nat
  assessment_count : Nat
  log_count : Nat
  status : ProjectStatus
deriving DecidableEq, Repr

/-- Write sequence of register_project after the project row is created
(index.py lines 211-292).  Each INSERT/UPDATE is followed by its own
conn.commit() (lines 230, 257, 278, 286), so the committed state advances
step by step; failAt injects a database exception at one statement, and
the returned state is what a reader observes afterwards: all commits that
preceded the failing statement. -/
def register_pipeline (db : AssessPipelineState) (failAt : Option RegFail) :
    AssessPipelineState :=
  if failAt = some RegFail.satInsert then db
  else
    let db1 := { db with satellite_count := db.satellite_count + 1 }
    if failAt = some RegFail.assessInsert then db1
    else
      let db2 := { db1 with assessment_count := db1.assessment_count + 1 }
      if failAt = some RegFail.logInsert then db2
      else
        let db3 := { db2 with log_count := db2.log_count + 1 }
        if failAt = some RegFail.statusUpdate then db3
        else { db3 with status := ProjectStatus.assessing }

/-- Project fields read by the AI service functions
(openai_service.py): type, area magnitude, area unit. -/
structure ProjectData where
  project_type : ProjectType
  area_size : ℚ
  area_unit : AreaUnit
deriving DecidableEq, Repr

/-- Hectare-to-acre factor of estimate_fallback
(openai_service.py line 104): 2.47 for hectares, 1 otherwise. -/
def unit_multiplier : AreaUnit → ℚ
  | AreaUnit.hectares => 247 / 100
  | AreaUnit.acres => 1

/-- Normalized area of estimate_fallback (openai_service.py line 105). -/
def area_in_acres (pd : ProjectData) : ℚ :=
  pd.area_size * unit_multiplier pd.area_unit

/-- Per-acre annual rates dictionary of estimate_fallback
(openai_service.py lines 108-116); rates.get defaults to 1.0, the same
value the dictionary holds for the other project type. -/
def annual_rate : ProjectType → ℚ
  | ProjectType.forestry => 7 / 2
  | ProjectType.agriculture => 6 / 5
  | ProjectType.agroforestry => 14 / 5
  | ProjectType.wetland => 24 / 5
  | ProjectType.other => 1

/-- Round half to even, relative to a given integer floor candidate. -/
def roundHalfEvenAux (x : ℚ) (n : ℤ) : ℤ :=
  if x - n < 1 / 2 then n
  else if (1 : ℚ) / 2 < x - n then n + 1
  else if n % 2 = 0 then n else n + 1

/-- Round half to even, the semantics of Python's builtin round. -/
def roundHalfEvenZ (x : ℚ) : ℤ := roundHalfEvenAux x ⌊x⌋

/-- Round to 2 decimal places, the round(x, 2) of estimate_fallback
(openai_service.py line 117). -/
def round2 (x : ℚ) : ℚ :=
  (roundHalfEvenZ (x * 100) : ℚ) / 100

/-- Fallback estimate of openai_service.estimate_fallback (lines 99-117):
round(area_in_acres * annual_rate, 2). -/
def estimate_fallback (pd : ProjectData) : ℚ :=
  round2 (area_in_acres pd * annual_rate pd.project_type)

/-- Fields of the dict analyze_project returns that the recorder stores. -/
structure AIResult where
  carbon_estimate : ℚ
  confidence_score : ℚ
  methodology : String
  model_version : String
deriving DecidableEq, Repr

/-- Outcome of the OpenAI call inside analyze_project: failure covers an
API error or a json.loads failure (any exception reaches the except
clause); success carries the carbon_estimate string of the parsed JSON
(result.get defaults it to the empty string) together with the
confidence_score and methodology fields that the route stores. -/
inductive AICall
  | failure
  | success (carbon_estimate_str : String) (confidence : ℚ) (methodology : String)
deriving DecidableEq, Repr

/-- List-of-characters test that pat occurs at the head of l. -/
def startsWithL : List Char → List Char → Bool
  | [], _ => true
  | _ :: _, [] => false
  | p :: ps, c :: cs => p == c && startsWithL ps cs

/-- List-of-characters substring test, the semantics of Python's
"pat in s". -/
def containsL (pat : List Char) : List Char → Bool
  | [] => pat.isEmpty
  | c :: cs => startsWithL pat (c :: cs) || containsL pat cs

/-- Test of openai_service.py line 73: whether the literal
"tons CO2e/year" occurs in the carbon_estimate string. -/
def containsTons (s : String) : Bool :=
  containsL "tons CO2e/year".data s.data

/-- Characters before the first space, the s.split(' ')[0] of
openai_service.py line 74. -/
def firstTokenL : List Char → List Char
  | [] => []
  | c :: cs => if c = ' ' then [] else c :: firstTokenL cs

/-- First space-separated token of a string. -/
def firstToken (s : String) : String :=
  String.mk (firstTokenL s.data)

/-- Fallback dict returned by the except clause of analyze_project
(openai_service.py lines 82-97). -/
def fallbackResult (pd : ProjectData) : AIResult :=
  { carbon_estimate := estimate_fallback pd,
    confidence_score := 70,
    methodology := "AI-assisted estimation with standard factors",
    model_version := "fallback" }

/-- openai_service.analyze_project (lines 17-97).  pyFloat models
Python's float() parser for the leading token of the carbon_estimate
string; none models a raised ValueError, which like every other exception
lands in the except clause and produces the fallback dict.  When the
parsed JSON's carbon_estimate string lacks the substring
"tons CO2e/year", carbon_estimate stays at the 0.0 initialised at line 72
and the result is returned with model_version "gpt-4". -/
def analyze_project (pyFloat : String → Option ℚ) (pd : ProjectData)
    (call : AICall) : AIResult :=
  match call with
  | AICall.failure => fallbackResult pd
  | AICall.success s conf meth =>
    if containsTons s then
      match pyFloat (firstToken s) with
      | some x =>
        { carbon_estimate := x, confidence_score := conf,
          methodology := meth, model_version := "gpt-4" }
      | none => fallbackResult pd
    else
      { carbon_estimate := 0, confidence_score := conf,
        methodology := meth, model_version := "gpt-4" }

/-- Doubling loop: scale a positive rational up by powers of two until
its significand reaches 2^52, decrementing the exponent. -/
def upLoop : Nat → ℚ → ℤ → ℚ × ℤ
  | 0, q, e => (q, e)
  | fuel + 1, q, e => if q < 2 ^ 52 then upLoop fuel (q * 2) (e - 1) else (q, e)

/-- Halving loop: scale a positive rational down by powers of two until
its significand drops below 2^53, incrementing the exponent. -/
def downLoop : Nat → ℚ → ℤ → ℚ × ℤ
  | 0, q, e => (q, e)
  | fuel + 1, q, e => if 2 ^ 53 ≤ q then downLoop fuel (q / 2) (e + 1) else (q, e)

/-- Significand-exponent form of a positive rational: scales q into
[2^52, 2^53) so that q = m * 2^(e-52).  The fuel bounds the modelled
binary exponent range to about |e| <= 44, ample for every monetary or
quantity magnitude the ledger can hold (DECIMAL(12,2)). -/
def normalizeM (q : ℚ) : ℚ × ℤ :=
  downLoop 96 (upLoop 96 q 52).1 (upLoop 96 q 52).2

/-- Rounding of a positive rational to 53 significant binary digits,
round half to even. -/
def flPos (q : ℚ) : ℚ :=
  (roundHalfEvenZ (normalizeM q).1 : ℚ) * (2 : ℚ) ^ ((normalizeM q).2 - 52)

/-- Modelled from the runtime the source relies on: rounding of a real
(rational) value to the nearest IEEE-754 binary64 float, round half to
even, 53-bit significand, ignoring overflow and subnormals (irrelevant at
the magnitudes of the ledger).  This is the value semantics of the
float() conversions in buy_credit (index.py lines 601-603). -/
def fl (q : ℚ) : ℚ :=
  if q < 0 then -flPos (-q) else if q = 0 then 0 else flPos q

/-- IEEE-754 binary64 multiplication: exact product, then rounding. -/
def fmul (x y : ℚ) : ℚ := fl (x * y)

/-- Value of total_price as index.py lines 601-603 actually compute it:
amount and price_per_credit are converted to binary64 floats and
multiplied in float arithmetic. -/
def pythonTotalPrice (amount price : ℚ) : ℚ := fmul (fl amount) (fl price)

/-- Sample available lot used by the concrete witnesses: quantity 10,
price 25, owned through project 1 by user 1. -/
def sampleLot : CreditLot :=
  { id := 1, project_id := 1, assessment_id := 1, credit_amount := 10,
    issuance_date := 100, expiry_date := 1925, certificate_id := "CC-1-aaaa",
    status := CreditStatus.available, price_per_credit := 25,
    verification_document_url := "/reports/1.pdf" }

/-- Sample ledger with one project, one available lot, no transactions. -/
def sampleState : MarketState :=
  { projects := [{ id := 1, user_id := 1, status := ProjectStatus.verified }],
    credits := [sampleLot],
    transactions := [] }

lemma setSold_keep (cid : Nat) (c : CreditLot) :
    (setSold cid c).assessment_id = c.assessment_id ∧
      (setSold cid c).credit_amount = c.credit_amount := by
  unfold setSold
  split <;> exact ⟨rfl, rfl⟩

/-- C2 counterexample: the claim that a purchase of more than the lot's
quantity fails with InsufficientQuantity and leaves the ledger unchanged
is false: buying 20 units of the 10-unit sample lot succeeds, inserts a
completed transaction for 20 units, and marks the lot sold. -/
theorem buy_credit_oversell_counterexample :
    buy_credit sampleState 1 2 20 "CC-1-cccc" 6 =
        some { projects := sampleState.projects,
               credits := [{ sampleLot with status := CreditStatus.sold }],
               transactions := [purchaseTx 1 2 1 20 25] }
      ∧ sampleLot.credit_amount < 20
      ∧ (buy_credit sampleState 1 2 20 "CC-1-cccc" 6).isSome = true
      ∧ [purchaseTx 1 2 1 20 25] ≠ sampleState.transactions := by
  refine ⟨?_, by norm_num [sampleLot], ?_, by simp [sampleState]⟩ <;>
    norm_num [buy_credit, sampleState, sampleLot, setSold, purchaseTx,
      availablePred, projPred, List.find?, Option.isSome]

/-- C2 amended: buy_credit has no InsufficientQuantity check.  Any
purchase with amount at or above the lot's quantity is treated as a full
purchase: it succeeds, inserts one completed transaction for the
requested amount at total_price amount * price_per_credit, sets the
lot's status to sold while leaving every credit_amount unchanged, and
creates no sibling lot. -/
theorem buy_credit_oversell_succeeds (st : MarketState) (cid buyer : Nat)
    (amt : ℚ) (cert : String) (fid : Nat) (credit : CreditLot) (proj : Project)
    (hfind : st.credits.find? (availablePred cid) = some credit)
    (hproj : st.projects.find? (projPred credit.project_id) = some proj)
    (hge : credit.credit_amount ≤ amt) :
    buy_credit st cid buyer amt cert fid =
        some { projects := st.projects,
               credits := st.credits.map (setSold cid),
               transactions := st.transactions
                 ++ [purchaseTx cid buyer proj.user_id amt credit.price_per_credit] }
      ∧ (purchaseTx cid buyer proj.user_id amt credit.price_per_credit).amount = amt
      ∧ (∀ c ∈ st.credits, (setSold cid c).credit_amount = c.credit_amount)
      ∧ (st.credits.map (setSold cid)).length = st.credits.length := by
  refine ⟨?_, rfl, fun c _ => (setSold_keep cid c).2, by simp⟩
  simp only [buy_credit, hfind, hproj]
  rw [if_pos hge]

/-- Concrete instance of buy_credit_oversell_succeeds at the sample
ledger with amount 20 against quantity 10. -/
theorem buy_credit_oversell_succeeds_witness :
    buy_credit sampleState 1 2 20 "CC-1-dddd" 7 =
        some { projects := sampleState.projects,
               credits := sampleState.credits.map (setSold 1),
               transactions := sampleState.transactions ++ [purchaseTx 1 2 1 20 25] }
      ∧ (purchaseTx 1 2 1 20 25).amount = 20 :=
  have h := buy_credit_oversell_succeeds sampleState 1 2 20 "CC-1-dddd" 7 sampleLot
    { id := 1, user_id := 1, status := ProjectStatus.verified }
    (by norm_num [sampleState, sampleLot, availablePred, List.find?])
    (by norm_num [sampleState, sampleLot, projPred, List.find?])
    (by norm_num [sampleLot])
  ⟨h.1, h.2.1⟩

/-- C6 counterexample: the claim that the assessment pipeline's writes
are atomic is false: each insert of register_project is committed on its
own, so a database failure at the assessment insert leaves a committed
satellite observation row with no assessment row and no verification log
row, a partial subset visible to every reader. -/
theorem register_pipeline_partial_write_counterexample :
    (register_pipeline ⟨0, 0, 0, ProjectStatus.registered⟩
        (some RegFail.assessInsert)).satellite_count = 1
      ∧ (register_pipeline ⟨0, 0, 0, ProjectStatus.registered⟩
          (some RegFail.assessInsert)).assessment_count = 0
      ∧ (register_pipeline ⟨0, 0, 0, ProjectStatus.registered⟩
          (some RegFail.assessInsert)).log_count = 0 :=
  ⟨rfl, rfl, rfl⟩

/-- C6 amended: a fully successful invocation of the pipeline appends
exactly one satellite row, one assessment row and one verification log
row and moves the project to assessing; but the writes are committed one
statement at a time, so a failure after an earlier commit leaves exactly
the earlier rows observable (prefix visibility instead of atomicity). -/
theorem register_pipeline_per_step_commits (db : AssessPipelineState) :
    register_pipeline db none =
        { satellite_count := db.satellite_count + 1,
          assessment_count := db.assessment_count + 1,
          log_count := db.log_count + 1, status := ProjectStatus.assessing }
      ∧ register_pipeline db (some RegFail.satInsert) = db
      ∧ register_pipeline db (some RegFail.assessInsert) =
          { db with satellite_count := db.satellite_count + 1 }
      ∧ register_pipeline db (some RegFail.logInsert) =
          { db with satellite_count := db.satellite_count + 1,
                    assessment_count := db.assessment_count + 1 }
      ∧ register_pipeline db (some RegFail.statusUpdate) =
          { db with satellite_count := db.satellite_count + 1,
                    assessment_count := db.assessment_count + 1,
                    log_count := db.log_count + 1 } :=
  ⟨rfl, rfl, rfl, rfl, rfl⟩

/-- C7: generate_report mints one credit lot with quantity equal to the
assessment's carbon_estimate, expiry equal to issuance plus five years of
365 days (the timedelta(days=365*5) at index.py line 470), status
available, and transitions the project to verified. -/
theorem generate_report_mints_lot (p : Project) (a : AssessmentRow)
    (today : Nat) (suffix : String) (fid : Nat) :
    (generate_report p a today suffix fid).lot.credit_amount = a.carbon_estimate
      ∧ (generate_report p a today suffix fid).lot.expiry_date
          = (generate_report p a today suffix fid).lot.issuance_date + 365 * 5
      ∧ (generate_report p a today suffix fid).lot.status = CreditStatus.available
      ∧ (generate_report p a today suffix fid).project.status = ProjectStatus.verified
      ∧ (generate_report p a today suffix fid).lot.assessment_id = a.id :=
  ⟨rfl, rfl, rfl, rfl, rfl⟩

/-- C9 counterexample: the claim that project status never moves
backward and that a transition from a non-adjacent state fails with
InvalidState is false: viewing the assessment page of a project that is
already verified succeeds and resets its status to assessing, a strictly
backward move along the lifecycle chain. -/
theorem project_status_moves_backward_counterexample :
    (project_assessment_status_update
        { id := 1, user_id := 1, status := ProjectStatus.verified }).status
        = ProjectStatus.assessing
      ∧ statusRank (project_assessment_status_update
            { id := 1, user_id := 1, status := ProjectStatus.verified }).status
          < statusRank
              (Project.status { id := 1, user_id := 1, status := ProjectStatus.verified }) :=
  ⟨rfl, by norm_num [project_assessment_status_update, statusRank]⟩

/-- C9 amended: the project_assessment view unconditionally writes status
assessing on every view, whatever the current status, and generate_report
unconditionally writes verified; no transition is guarded, so a verified
project is moved strictly backward to assessing simply by viewing its
assessment page. -/
theorem project_assessment_overwrites_status (p : Project) (a : AssessmentRow)
    (today : Nat) (suffix : String) (fid : Nat)
    (h : p.status = ProjectStatus.verified) :
    (project_assessment_status_update p).status = ProjectStatus.assessing
      ∧ (generate_report p a today suffix fid).project.status = ProjectStatus.verified
      ∧ statusRank (project_assessment_status_update p).status < statusRank p.status := by
  refine ⟨rfl, rfl, ?_⟩
  rw [h]
  norm_num [project_assessment_status_update, statusRank]

/-- Concrete instance of project_assessment_overwrites_status at a
verified project. -/
theorem project_assessment_overwrites_status_witness :
    (project_assessment_status_update
        { id := 2, user_id := 1, status := ProjectStatus.verified }).status
        = ProjectStatus.assessing
      ∧ (generate_report { id := 2, user_id := 1, status := ProjectStatus.verified }
          ⟨1, 2, 5000, 95, VerifStatus.approved, none⟩ 200 "abcd" 3).project.status
          = ProjectStatus.verified
      ∧ statusRank (project_assessment_status_update
            { id := 2, user_id := 1, status := ProjectStatus.verified }).status
          < statusRank
              (Project.status { id := 2, user_id := 1, status := ProjectStatus.verified }) :=
  project_assessment_overwrites_status
    { id := 2, user_id := 1, status := ProjectStatus.verified }
    ⟨1, 2, 5000, 95, VerifStatus.approved, none⟩ 200 "abcd" 3 rfl

/-- C10: when the AI reply parses as JSON but its carbon_estimate string
lacks the substring "tons CO2e/year", analyze_project keeps the
initialised 0.0 estimate and tags the result with model version gpt-4,
preserving the reply's other fields; the deterministic fallback branch is
not taken. -/
theorem analyze_project_unit_mismatch (pyFloat : String → Option ℚ)
    (pd : ProjectData) (s : String) (conf : ℚ) (meth : String)
    (h : containsTons s = false) :
    (analyze_project pyFloat pd (AICall.success s conf meth)).carbon_estimate = 0
      ∧ (analyze_project pyFloat pd (AICall.success s conf meth)).model_version = "gpt-4"
      ∧ (analyze_project pyFloat pd (AICall.success s conf meth)).confidence_score = conf
      ∧ (analyze_project pyFloat pd (AICall.success s conf meth)).methodology = meth
      ∧ (analyze_project pyFloat pd (AICall.success s conf meth)).model_version
          ≠ (fallbackResult pd).model_version := by
  simp only [analyze_project, h]
  refine ⟨rfl, rfl, rfl, rfl, ?_⟩
  simp [fallbackResult]

/-- Concrete instance of analyze_project_unit_mismatch: a JSON reply
whose carbon_estimate string "500 tons CO2" does not contain
"tons CO2e/year". -/
theorem analyze_project_unit_mismatch_witness :
    (analyze_project (fun _ => none)
          { project_type := ProjectType.forestry, area_size := 100,
            area_unit := AreaUnit.hectares }
          (AICall.success "500 tons CO2" 80 "IPCC")).carbon_estimate = 0
      ∧ (analyze_project (fun _ => none)
          { project_type := ProjectType.forestry, area_size := 100,
            area_unit := AreaUnit.hectares }
          (AICall.success "500 tons CO2" 80 "IPCC")).model_version = "gpt-4" :=
  have h := analyze_project_unit_mismatch (fun _ => none)
    { project_type := ProjectType.forestry, area_size := 100,
      area_unit := AreaUnit.hectares } "500 tons CO2" 80 "IPCC" (by decide)
  ⟨h.1, h.2.1⟩

set_option maxRecDepth 40000 in
set_option maxHeartbeats 3000000 in
/-- C8 counterexample: total_price is not computed in exact fixed-point
decimal arithmetic; index.py lines 601-603 convert amount and
price_per_credit to binary64 floats and multiply them in float
arithmetic, so for amount 0.1 and price 0.70 the computed total_price
differs from the exact decimal product 0.07. -/
theorem total_price_float_drift_counterexample :
    pythonTotalPrice (1 / 10) (7 / 10) ≠ (1 / 10 : ℚ) * (7 / 10) := by
  norm_num [pythonTotalPrice, fmul, fl, flPos, normalizeM, upLoop, downLoop,
    roundHalfEvenZ, roundHalfEvenAux]

set_option maxRecDepth 40000 in
set_option maxHeartbeats 6000000 in
/-- C8 amended: total_price is computed as amount times price_per_unit in
IEEE-754 binary64 floating point, after float() conversions of both
operands.  The computation is exact when the operands are binary
representable, as for amount 0.5 at price 25.00, but drifts from the
exact decimal product otherwise, as for amount 0.1 at price 0.70. -/
theorem total_price_float_semantics :
    pythonTotalPrice (1 / 2) 25 = (1 / 2 : ℚ) * 25
      ∧ pythonTotalPrice (1 / 10) (7 / 10) ≠ (7 : ℚ) / 100 := by
  constructor <;>
    norm_num [pythonTotalPrice, fmul, fl, flPos, normalizeM, upLoop, downLoop,
      roundHalfEvenZ, roundHalfEvenAux]

end GreenConnect
